import Mathlib

/-!
Verification development for the CameraCapture plugin's capture engine
(Plugin.CaptureEngine.cpp).  The C++ engine is shallowly embedded as a pure
state machine: each lock-protected section of the source (the public calls,
the coroutine bodies and the async completion handlers) becomes one Lean
function on an explicit `EngineState`, and notifications raised through the
module callback are collected as explicit emission records that snapshot the
engine state at the moment of the callback.  External collaborators (the
Media Foundation capture session, the GPU texture provider, the WinRT event
tables of the payload handler) are modelled at their boundary, with Boolean
oracles standing for the success or failure of their asynchronous calls.
-/

namespace CaptureEngineModel

/-- HRESULT values returned by the engine paths under study: S_OK,
E_ABORT (the busy error raised by IFR(E_ABORT)) and MF_E_UNEXPECTED
(device-resource acquisition failure in CreateDeviceResources). -/
inductive HResult
  | sOk
  | eAbort
  | mfEUnexpected
deriving DecidableEq, Repr

/-- The notifications delivered through the module callback, mirroring
CALLBACK_STATE.captureState.stateType plus the Failed() path. -/
inductive Notification
  | previewStarted
  | previewStopped
  | failureNotice
  | audioFrame
  | videoFrame (width : Nat) (height : Nat)
deriving DecidableEq, Repr

/-- Completion status of a winrt IAsyncAction, as observed by the
Completed handlers installed in StartPreview and StopPreview. -/
inductive AsyncStatus
  | completed
  | error
  | canceled
deriving DecidableEq, Repr

/-- The five event streams exposed by the payload handler, subscribed to
in the PayloadHandler setter and revoked in ResetPayloadHandler. -/
inductive PHEvent
  | mediaProfile
  | streamDescription
  | streamMetadata
  | streamSample
  | streamPayload
deriving DecidableEq, Repr

/-- One live event registration: which handler object it is on, which of
the five events, and the token returned at registration time. -/
structure Subscription where
  handler : Nat
  event : PHEvent
  token : Nat
deriving DecidableEq, Repr

/-- Modelled from the spec: the WinRT event tables of the payload handler
(Media.PayloadHandler is not part of the sources under study).  Tokens are
globally unique (winrt event tokens encode the delegate pointer), fresh
tokens start at 1, and the default-constructed token is 0, which never
matches a live registration. -/
structure SubWorld where
  nextToken : Nat
  subs : List Subscription
deriving DecidableEq, Repr

/-- Modelled from the spec: registering a delegate on one of the handler's
five events appends a registration and returns its fresh token. -/
def subscribe (w : SubWorld) (h : Nat) (e : PHEvent) : SubWorld × Nat :=
  (⟨w.nextToken + 1, w.subs ++ [⟨h, e, w.nextToken⟩]⟩, w.nextToken)

/-- Modelled from the spec: revoking with a token removes the registration
with that token from that event's table on that handler; a token that does
not match one of this event's registrations removes nothing. -/
def revoke (w : SubWorld) (h : Nat) (e : PHEvent) (t : Nat) : SubWorld :=
  ⟨w.nextToken,
   w.subs.filter (fun sub => !(sub.handler == h && sub.event == e && sub.token == t))⟩

/-- Number of live registrations a given handler still holds. -/
def danglingSubs (w : SubWorld) (h : Nat) : Nat :=
  (w.subs.filter (fun sub => sub.handler == h)).length

/-- The lazily allocated audio destination sample (m_audioSample): an
identity (allocation number) plus the size it was created with
(GetTotalLength of the first observed audio payload). -/
structure AudioSample where
  id : Nat
  size : Nat
deriving DecidableEq, Repr

/-- Modelled from the spec: the shared video texture produced by
SharedTexture::Create (Media.SharedTexture is not part of the sources
under study): an identity, the frameTextureDesc width/height it was
allocated with, and whether the frame texture resource is present
(always true for a successfully created texture). -/
structure SharedTexture where
  id : Nat
  width : Nat
  height : Nat
  hasFrameTexture : Bool
deriving DecidableEq, Repr

/-- The engine's shared state: every field guarded by m_cs that the claims
touch.  Booleans stand for nullable handles (true = non-null), Options for
handles whose identity matters.  The two counters instrument how many
audio-buffer and texture allocations have occurred, and the nextId fields
supply fresh identities for allocations. -/
structure EngineState where
  isShutdown : Bool
  startEventSignaled : Bool
  stopEventSignaled : Bool
  mediaDevice : Bool
  dxgiDeviceManager : Bool
  startPreviewOp : Bool
  stopPreviewOp : Bool
  mediaCapture : Bool
  mediaSink : Bool
  payloadHandler : Option Nat
  profileEventToken : Nat
  payloadEventToken : Nat
  streamSampleEventToken : Nat
  streamMetaDataEventToken : Nat
  streamDescriptionEventToken : Nat
  subWorld : SubWorld
  audioSample : Option AudioSample
  nextAudioId : Nat
  sharedVideoTexture : Option SharedTexture
  nextTextureId : Nat
  audioAllocCount : Nat
  textureAllocCount : Nat
  appCoordinateSystem : Bool
  mrcAudioEffect : Bool
  mrcPreviewEffect : Bool
  mrcVideoEffect : Bool
deriving DecidableEq, Repr

/-- The state established by the CaptureEngine constructor: not shut down,
both completion events created signaled, every handle null, all winrt
event tokens default (0). -/
def initState : EngineState :=
  { isShutdown := false
    startEventSignaled := true
    stopEventSignaled := true
    mediaDevice := false
    dxgiDeviceManager := false
    startPreviewOp := false
    stopPreviewOp := false
    mediaCapture := false
    mediaSink := false
    payloadHandler := none
    profileEventToken := 0
    payloadEventToken := 0
    streamSampleEventToken := 0
    streamMetaDataEventToken := 0
    streamDescriptionEventToken := 0
    subWorld := ⟨1, []⟩
    audioSample := none
    nextAudioId := 1
    sharedVideoTexture := none
    nextTextureId := 1
    audioAllocCount := 0
    textureAllocCount := 0
    appCoordinateSystem := false
    mrcAudioEffect := false
    mrcPreviewEffect := false
    mrcVideoEffect := false }

/-- CaptureEngine::CreateDeviceResources: a no-op when the media device and
DXGI device manager already exist; otherwise acquires the GPU device from
the Unity device resource, creates the media device and device manager and
associates them (all-or-nothing).  The oracle deviceOk stands for the
success of the external device/adapter acquisition chain; its failure
surfaces as MF_E_UNEXPECTED and leaves both fields empty. -/
def createDeviceResources (s : EngineState) (deviceOk : Bool) : HResult × EngineState :=
  if s.mediaDevice && s.dxgiDeviceManager then (.sOk, s)
  else if !deviceOk then (.mfEUnexpected, s)
  else (.sOk, { s with mediaDevice := true, dxgiDeviceManager := true })

/-- CaptureEngine::ReleaseDeviceResources: clears the audio sample, resets
and clears the shared video texture, clears the device manager and the
media device. -/
def releaseDeviceResources (s : EngineState) : EngineState :=
  { s with
    audioSample := none
    sharedVideoTexture := none
    dxgiDeviceManager := false
    mediaDevice := false }

/-- CaptureEngine::ResetPayloadHandler: when a handler is bound, revokes
the five event registrations using the stored tokens, in source order
(OnMediaProfile with m_profileEventToken, OnStreamPayload with
m_payloadEventToken, OnStreamSample with m_streamSampleEventToken,
OnStreamMetadata, OnStreamDescription), then clears the handler. -/
def resetPayloadHandler (s : EngineState) : EngineState :=
  match s.payloadHandler with
  | none => s
  | some h =>
    let w1 := revoke s.subWorld h .mediaProfile s.profileEventToken
    let w2 := revoke w1 h .streamPayload s.payloadEventToken
    let w3 := revoke w2 h .streamSample s.streamSampleEventToken
    let w4 := revoke w3 h .streamMetadata s.streamMetaDataEventToken
    let w5 := revoke w4 h .streamDescription s.streamDescriptionEventToken
    { s with subWorld := w5, payloadHandler := none }

/-- The CaptureEngine::PayloadHandler setter: resets the previous handler,
stores the new one, rebinds the sink if present, then subscribes the five
events in source order.  The source stores the OnStreamSample token into
m_streamSampleEventToken at line 350 and then stores the OnStreamPayload
token into m_streamSampleEventToken again at line 362, so the net stored
sample token is the payload token and m_payloadEventToken is never
assigned; the model reproduces exactly that. -/
def setPayloadHandler (s : EngineState) (h : Nat) : EngineState :=
  let s1 := resetPayloadHandler s
  let s2 := { s1 with payloadHandler := some h }
  let pA := subscribe s2.subWorld h .mediaProfile
  let pB := subscribe pA.1 h .streamDescription
  let pC := subscribe pB.1 h .streamMetadata
  let pD := subscribe pC.1 h .streamSample
  let pE := subscribe pD.1 h .streamPayload
  { s2 with
    subWorld := pE.1
    profileEventToken := pA.2
    streamDescriptionEventToken := pB.2
    streamMetaDataEventToken := pC.2
    streamSampleEventToken := pE.2 }

/-- CaptureEngine::StartPreview (the synchronous, lock-protected part):
rejects with E_ABORT when a start or stop operation is outstanding;
otherwise resets the start-complete event, ensures device resources
(propagating a failure after the event reset), launches the start
coroutine and stores its operation handle. -/
def startPreview (s : EngineState) (deviceOk : Bool) : HResult × EngineState :=
  if s.startPreviewOp || s.stopPreviewOp then (.eAbort, s)
  else
    let s1 := { s with startEventSignaled := false }
    let r := createDeviceResources s1 deviceOk
    if r.1 = .sOk then (.sOk, { r.2 with startPreviewOp := true })
    else (r.1, r.2)

/-- CaptureEngine::StopPreview (the synchronous, lock-protected part):
rejects with E_ABORT when a start or stop operation is outstanding;
otherwise resets the stop-complete event, launches the stop coroutine and
stores its operation handle. -/
def stopPreview (s : EngineState) : HResult × EngineState :=
  if s.startPreviewOp || s.stopPreviewOp then (.eAbort, s)
  else (.sOk, { s with stopEventSignaled := false, stopPreviewOp := true })

/-- One callback emission, as produced by Module::Callback or
Module::Failed: the notification together with a snapshot of the operation
handles and the shutdown flag at the instant the callback is invoked.
Modelled from the spec: the callback sink is set once at construction and
is not reassignable, so delivery itself is unconditional. -/
structure Emit where
  notif : Notification
  startOpAtEmit : Bool
  stopOpAtEmit : Bool
  shutdownAtEmit : Bool
deriving DecidableEq, Repr

/-- Raise one callback from the given engine state. -/
def emit (s : EngineState) (n : Notification) : Emit :=
  ⟨n, s.startPreviewOp, s.stopPreviewOp, s.isShutdown⟩

/-- The Completed handler installed on the start operation: runs under the
lock, clears m_startPreviewOp first, then raises Failed() on Error or the
PreviewStarted callback on Completed.  It fires once per launched
operation, hence the guard on the handle being present. -/
def completedStartHandler (s : EngineState) (st : AsyncStatus) : EngineState × List Emit :=
  if !s.startPreviewOp then (s, [])
  else
    let s1 := { s with startPreviewOp := false }
    match st with
    | .error => (s1, [emit s1 .failureNotice])
    | .completed => (s1, [emit s1 .previewStarted])
    | .canceled => (s1, [])

/-- The Completed handler installed on the stop operation: clears
m_stopPreviewOp first, then raises Failed() on Error or the PreviewStopped
callback on Completed. -/
def completedStopHandler (s : EngineState) (st : AsyncStatus) : EngineState × List Emit :=
  if !s.stopPreviewOp then (s, [])
  else
    let s1 := { s with stopPreviewOp := false }
    match st with
    | .error => (s1, [emit s1 .failureNotice])
    | .completed => (s1, [emit s1 .previewStopped])
    | .canceled => (s1, [])

/-- One demultiplexed payload as seen by the OnStreamPayload handler: its
major media type (audio with its total byte length, video with its encoded
width and height) or an unrecognized major type. -/
inductive PayloadData
  | audio (totalLength : Nat)
  | video (width : Nat) (height : Nat)
  | unknown
deriving DecidableEq, Repr

/-- The video branch's reallocation test, verbatim from the source: the
texture is (re)created when none exists, its frame texture is missing, or
its description's width or height differs from the payload's. -/
def videoNeedsAlloc (s : EngineState) (w h : Nat) : Bool :=
  match s.sharedVideoTexture with
  | none => true
  | some t => !t.hasFrameTexture || t.width != w || t.height != h

/-- Tail of the video branch after the copy: builds the callback state from
the texture description, runs UpdateTransforms when a coordinate system is
set (its success marks the buffer changed and fills the matrices), and
raises the PreviewVideoFrame callback only when the buffer changed. -/
def videoFinish (s : EngineState) (bufferChanged : Bool) (updateOk : Bool) :
    EngineState × List Emit :=
  match s.sharedVideoTexture with
  | none => (s, [])
  | some t =>
    let transformChanged := s.appCoordinateSystem && updateOk
    if bufferChanged || transformChanged then (s, [emit s (.videoFrame t.width t.height)])
    else (s, [])

/-- The OnStreamPayload handler: returns early when shut down, when the
sender is not the currently bound handler, or when the payload is null.
The audio branch lazily allocates m_audioSample sized to the first
payload's total length, copies in place, and always raises the
PreviewAudioFrame callback.  The video branch reallocates the shared
texture on a description mismatch (ensuring device resources first; the
deviceOk oracle covers the Unity-device lock, CreateDeviceResources and
SharedTexture::Create, whose failure returns without a callback), copies
the sample, and raises PreviewVideoFrame only when the texture was
(re)allocated or UpdateTransforms succeeded (oracle updateOk). -/
def onStreamPayload (s : EngineState) (sender : Nat) (p : Option PayloadData)
    (deviceOk updateOk : Bool) : EngineState × List Emit :=
  if s.isShutdown then (s, [])
  else if s.payloadHandler ≠ some sender then (s, [])
  else
    match p with
    | none => (s, [])
    | some .unknown => (s, [])
    | some (.audio len) =>
      let s1 :=
        if s.audioSample.isNone then
          { s with
            audioSample := some ⟨s.nextAudioId, len⟩
            nextAudioId := s.nextAudioId + 1
            audioAllocCount := s.audioAllocCount + 1 }
        else s
      (s1, [emit s1 .audioFrame])
    | some (.video w h) =>
      if videoNeedsAlloc s w h then
        if !deviceOk then (s, [])
        else
          let s1 :=
            { s with
              mediaDevice := true
              dxgiDeviceManager := true
              sharedVideoTexture := some ⟨s.nextTextureId, w, h, true⟩
              nextTextureId := s.nextTextureId + 1
              textureAllocCount := s.textureAllocCount + 1 }
          videoFinish s1 true updateOk
      else videoFinish s false updateOk

/-- The three MRC effect slots, in the order RemoveMrcEffectsAsync visits
them. -/
inductive EffectKind
  | audio
  | preview
  | video
deriving DecidableEq, Repr

/-- Calls the engine makes into the external capture session. -/
inductive ExternCall
  | stopStream
  | closeSession
  | removeEffect (k : EffectKind)
deriving DecidableEq, Repr

/-- Result of RemoveMrcEffectsAsync: the state it left behind, the effects
whose removal was attempted (in order), and whether the coroutine
completed normally (false when a co_await of RemoveEffectAsync threw,
which aborts the remainder of the coroutine). -/
structure RemoveResult where
  state : EngineState
  attempted : List EffectKind
  ok : Bool
deriving DecidableEq, Repr

/-- CaptureEngine::RemoveMrcEffectsAsync: a no-op without a capture
session or when none of the three effect handles is populated.  Otherwise
removes the audio, then preview-video, then record-video effect;, each
handle is cleared only after its removal returns.  There is no try/catch,
so a failed removal (its oracle false) faults the coroutine at that await:
that effect keeps its handle and the remaining effects are not visited. -/
def removeMrcEffectsAsync (s : EngineState) (audioOk previewOk videoOk : Bool) :
    RemoveResult :=
  if !s.mediaCapture then ⟨s, [], true⟩
  else if s.mrcAudioEffect || s.mrcPreviewEffect || s.mrcVideoEffect then
    if s.mrcAudioEffect && !audioOk then ⟨s, [.audio], false⟩
    else
      let a := s.mrcAudioEffect
      let s1 := if a then { s with mrcAudioEffect := false } else s
      let att1 : List EffectKind := if a then [.audio] else []
      if s1.mrcPreviewEffect && !previewOk then ⟨s1, att1 ++ [.preview], false⟩
      else
        let pr := s1.mrcPreviewEffect
        let s2 := if pr then { s1 with mrcPreviewEffect := false } else s1
        let att2 := att1 ++ (if pr then [.preview] else [])
        if s2.mrcVideoEffect && !videoOk then ⟨s2, att2 ++ [.video], false⟩
        else
          let v := s2.mrcVideoEffect
          let s3 := if v then { s2 with mrcVideoEffect := false } else s2
          ⟨s3, att2 ++ (if v then [.video] else []), true⟩
  else ⟨s, [], true⟩

/-- The body of CaptureEngine::StartPreviewCoroutine, abstracted to its
effects on the engine fields: when the external start sequence succeeds it
leaves a capture session and a bound sink and signals the start-complete
event; when it faults nothing of that is stored.  It runs only while the
launched start operation is outstanding; it never touches the operation
handles. -/
def runStartBody (s : EngineState) (ok : Bool) : EngineState :=
  if !s.startPreviewOp then s
  else if ok then
    { s with mediaCapture := true, mediaSink := true, startEventSignaled := true }
  else s

/-- The body of CaptureEngine::StopPreviewCoroutine: resets the payload
handler, unbinds and drops the sink, and if a capture session exists stops
the stream when it reports Streaming (externally) and releases it
(RemoveMrcEffectsAsync, clear the device-manager association, Close); a
fault inside effect removal aborts the coroutine before the close and
before the stop-complete event is signaled.  Alongside the state it
returns the calls made into the external session. -/
def runStopBody (s : EngineState) (streaming remA remP remV : Bool) :
    EngineState × List ExternCall :=
  if !s.stopPreviewOp then (s, [])
  else
    let s1 := resetPayloadHandler s
    let s2 := { s1 with mediaSink := false }
    if s2.mediaCapture then
      let stopCalls : List ExternCall := if streaming then [.stopStream] else []
      let r := removeMrcEffectsAsync s2 remA remP remV
      let remCalls := r.attempted.map ExternCall.removeEffect
      if !r.ok then (r.state, stopCalls ++ remCalls)
      else
        ({ r.state with mediaCapture := false, stopEventSignaled := true },
         stopCalls ++ remCalls ++ [.closeSession])
    else ({ s2 with stopEventSignaled := true }, [])

/-- CaptureEngine::Shutdown, under the lock from entry to return: a no-op
when already shut down; otherwise sets the shutdown flag, drains an
outstanding start operation by waiting on the start-complete event (no
state effect), calls StopPreview when a capture session exists — whose
busy check fails with E_ABORT (ignored) precisely when an operation is
still outstanding, and which otherwise launches the stop coroutine, run
here to its completion during the stop-event wait — and finally releases
the device resources unconditionally.  The Completed handler of a stop
operation launched here still runs afterwards, once the lock is free.
shutdownInner is the middle portion: the conditional StopPreview call and
the inline run of the stop coroutine it launches. -/
def shutdownInner (s1 : EngineState) (streaming remA remP remV : Bool) :
    EngineState × List ExternCall :=
  if s1.mediaCapture then
    let r := stopPreview s1
    if r.1 = .sOk then runStopBody r.2 streaming remA remP remV
    else (r.2, [])
  else (s1, [])

def shutdownStep (s : EngineState) (streaming remA remP remV : Bool) :
    EngineState × List ExternCall :=
  if s.isShutdown then (s, [])
  else
    let inner := shutdownInner { s with isShutdown := true } streaming remA remP remV
    (releaseDeviceResources inner.1, inner.2)

/-- One lock-protected section of engine execution, with the Boolean
oracles for the external calls it performs. -/
inductive Act
  | callStartPreview (deviceOk : Bool)
  | callStopPreview
  | bgStartBody (ok : Bool)
  | bgStopBody (streaming remA remP remV : Bool)
  | completeStart (st : AsyncStatus)
  | completeStop (st : AsyncStatus)
  | callShutdown (streaming remA remP remV : Bool)
  | setHandler (h : Nat)
  | setCoordinate (b : Bool)
  | payloadArrive (sender : Nat) (p : Option PayloadData) (deviceOk updateOk : Bool)
deriving DecidableEq, Repr

/-- The step function of the engine state machine: each action is one
serialized critical section; the emissions are the callbacks it raised. -/
def step (s : EngineState) : Act → EngineState × List Emit
  | .callStartPreview dOk => ((startPreview s dOk).2, [])
  | .callStopPreview => ((stopPreview s).2, [])
  | .bgStartBody ok => (runStartBody s ok, [])
  | .bgStopBody a b c d => ((runStopBody s a b c d).1, [])
  | .completeStart st => completedStartHandler s st
  | .completeStop st => completedStopHandler s st
  | .callShutdown a b c d => ((shutdownStep s a b c d).1, [])
  | .setHandler h => (setPayloadHandler s h, [])
  | .setCoordinate b => ({ s with appCoordinateSystem := b }, [])
  | .payloadArrive sender p dOk uOk => onStreamPayload s sender p dOk uOk

/-- Run a sequence of serialized critical sections, collecting every
callback emission in order. -/
def run : EngineState → List Act → EngineState × List Emit
  | s, [] => (s, [])
  | s, a :: rest =>
    let r := step s a
    let r2 := run r.1 rest
    (r2.1, r.2 ++ r2.2)

/-- The mutual-exclusion invariant on the two operation handles: they are
never both outstanding. -/
def opsExclusive (s : EngineState) : Bool :=
  !(s.startPreviewOp && s.stopPreviewOp)

/-- The effects currently installed, in the order RemoveMrcEffectsAsync
visits them. -/
def installedEffects (s : EngineState) : List EffectKind :=
  (if s.mrcAudioEffect then [EffectKind.audio] else []) ++
  (if s.mrcPreviewEffect then [EffectKind.preview] else []) ++
  (if s.mrcVideoEffect then [EffectKind.video] else [])

/-- A trace in which a start operation is still in flight when Shutdown
runs: the start is issued, its background body completes (thereby
signaling the start-complete event Shutdown waits on), Shutdown runs while
the Completed handler is still queued behind the lock, and the handler
fires afterwards. -/
def c2Trace : List Act :=
  [Act.callStartPreview true, Act.bgStartBody true,
   Act.callShutdown false false false false, Act.completeStart AsyncStatus.completed]

/-- The engine state right after a Shutdown issued on a fresh engine. -/
def c3ShutState : EngineState :=
  (shutdownStep initState false false false false).1

/-- A state with an open session and all three MRC effects installed. -/
def c9AllEffectsState : EngineState :=
  { initState with
    mediaCapture := true
    mrcAudioEffect := true
    mrcPreviewEffect := true
    mrcVideoEffect := true }

section Helpers
theorem resetPH_startOp (s : EngineState) :
    (resetPayloadHandler s).startPreviewOp = s.startPreviewOp := by
  cases h : s.payloadHandler <;> simp [resetPayloadHandler, h]

theorem resetPH_stopOp (s : EngineState) :
    (resetPayloadHandler s).stopPreviewOp = s.stopPreviewOp := by
  cases h : s.payloadHandler <;> simp [resetPayloadHandler, h]

theorem resetPH_isShutdown (s : EngineState) :
    (resetPayloadHandler s).isShutdown = s.isShutdown := by
  cases h : s.payloadHandler <;> simp [resetPayloadHandler, h]

theorem resetPH_mediaCapture (s : EngineState) :
    (resetPayloadHandler s).mediaCapture = s.mediaCapture := by
  cases h : s.payloadHandler <;> simp [resetPayloadHandler, h]

theorem removeMrc_startOp (s : EngineState) (a b c : Bool) :
    (removeMrcEffectsAsync s a b c).state.startPreviewOp = s.startPreviewOp := by
  unfold removeMrcEffectsAsync
  cases hM : s.mediaCapture <;> cases hA : s.mrcAudioEffect <;>
    cases hP : s.mrcPreviewEffect <;> cases hV : s.mrcVideoEffect <;>
    cases a <;> cases b <;> cases c <;> simp [hM, hA, hP, hV]

theorem removeMrc_stopOp (s : EngineState) (a b c : Bool) :
    (removeMrcEffectsAsync s a b c).state.stopPreviewOp = s.stopPreviewOp := by
  unfold removeMrcEffectsAsync
  cases hM : s.mediaCapture <;> cases hA : s.mrcAudioEffect <;>
    cases hP : s.mrcPreviewEffect <;> cases hV : s.mrcVideoEffect <;>
    cases a <;> cases b <;> cases c <;> simp [hM, hA, hP, hV]

theorem runStopBody_startOp (s : EngineState) (a b c d : Bool) :
    (runStopBody s a b c d).1.startPreviewOp = s.startPreviewOp := by
  cases hstop : s.stopPreviewOp with
  | false => simp [runStopBody, hstop]
  | true =>
    simp only [runStopBody, hstop, Bool.not_true, Bool.false_eq_true, if_false]
    cases hcap : (resetPayloadHandler s).mediaCapture with
    | false => simp [hcap, resetPH_startOp]
    | true =>
      simp only [hcap, if_true]
      split <;> simp [removeMrc_startOp, resetPH_startOp]

theorem runStopBody_stopOp (s : EngineState) (a b c d : Bool) :
    (runStopBody s a b c d).1.stopPreviewOp = s.stopPreviewOp := by
  cases hstop : s.stopPreviewOp with
  | false => simp [runStopBody, hstop]
  | true =>
    simp only [runStopBody, hstop, Bool.not_true, Bool.false_eq_true, if_false]
    cases hcap : (resetPayloadHandler s).mediaCapture with
    | false => simp [hcap, resetPH_stopOp, hstop]
    | true =>
      simp only [hcap, if_true]
      split <;> simp [removeMrc_stopOp, resetPH_stopOp, hstop]

theorem videoFinish_state (s : EngineState) (bc uOk : Bool) :
    (videoFinish s bc uOk).1 = s := by
  unfold videoFinish
  cases hT : s.sharedVideoTexture with
  | none => rfl
  | some t => dsimp only; split <;> rfl

theorem onStreamPayload_startOp (s : EngineState) (sender : Nat)
    (p : Option PayloadData) (dOk uOk : Bool) :
    (onStreamPayload s sender p dOk uOk).1.startPreviewOp = s.startPreviewOp := by
  unfold onStreamPayload
  by_cases h1 : s.isShutdown = true
  · simp [h1]
  by_cases h2 : s.payloadHandler ≠ some sender
  · simp [h1, h2]
  cases p with
  | none => simp [h1, h2]
  | some pd =>
    cases pd with
    | audio len => by_cases hA : s.audioSample.isNone <;> simp [h1, h2, hA]
    | video w h =>
      by_cases hN : videoNeedsAlloc s w h = true <;> by_cases hD : dOk = true <;>
        simp [h1, h2, hN, hD, videoFinish_state]
    | unknown => simp [h1, h2]

theorem onStreamPayload_stopOp (s : EngineState) (sender : Nat)
    (p : Option PayloadData) (dOk uOk : Bool) :
    (onStreamPayload s sender p dOk uOk).1.stopPreviewOp = s.stopPreviewOp := by
  unfold onStreamPayload
  by_cases h1 : s.isShutdown = true
  · simp [h1]
  by_cases h2 : s.payloadHandler ≠ some sender
  · simp [h1, h2]
  cases p with
  | none => simp [h1, h2]
  | some pd =>
    cases pd with
    | audio len => by_cases hA : s.audioSample.isNone <;> simp [h1, h2, hA]
    | video w h =>
      by_cases hN : videoNeedsAlloc s w h = true <;> by_cases hD : dOk = true <;>
        simp [h1, h2, hN, hD, videoFinish_state]
    | unknown => simp [h1, h2]

theorem opsExclusive_release (t : EngineState) :
    opsExclusive (releaseDeviceResources t) = opsExclusive t := rfl

theorem stopPreview_opsExclusive (s : EngineState)
    (hs : opsExclusive s = true) : opsExclusive (stopPreview s).2 = true := by
  unfold stopPreview
  by_cases h1 : (s.startPreviewOp || s.stopPreviewOp) = true
  · simpa [h1] using hs
  · have h2 : s.startPreviewOp = false := by
      cases hx : s.startPreviewOp <;> simp_all
    have h3 : s.stopPreviewOp = false := by
      cases hx : s.stopPreviewOp <;> simp_all
    simp [h1, h2, h3, opsExclusive]

theorem opsExclusive_shutdownInner (u : EngineState) (a b c d : Bool)
    (hu : opsExclusive u = true) :
    opsExclusive (shutdownInner u a b c d).1 = true := by
  unfold shutdownInner
  by_cases hc : u.mediaCapture = true
  · by_cases hok : (stopPreview u).1 = HResult.sOk
    · have h4 := stopPreview_opsExclusive u hu
      simp only [hc, hok, if_true]
      simpa [opsExclusive, runStopBody_startOp, runStopBody_stopOp] using h4
    · simp only [hc, hok, if_true, if_false]
      exact stopPreview_opsExclusive u hu
  · simpa [hc] using hu

/-- Every serialized section preserves mutual exclusion of the two
operation handles. -/
theorem step_opsExclusive (s : EngineState) (a : Act)
    (hs : opsExclusive s = true) : opsExclusive (step s a).1 = true := by
  cases a with
  | callStartPreview dOk =>
    show opsExclusive (startPreview s dOk).2 = true
    unfold startPreview createDeviceResources
    by_cases h1 : (s.startPreviewOp || s.stopPreviewOp) = true
    · simpa [h1] using hs
    · have h2 : s.startPreviewOp = false := by
        cases hx : s.startPreviewOp <;> simp_all
      have h2' : s.stopPreviewOp = false := by
        cases hx : s.stopPreviewOp <;> simp_all
      by_cases h3 : (s.mediaDevice && s.dxgiDeviceManager) = true <;>
        by_cases h4 : dOk = true <;> simp [h1, h2, h2', h3, h4, opsExclusive]
  | callStopPreview =>
    exact stopPreview_opsExclusive s hs
  | bgStartBody ok =>
    show opsExclusive (runStartBody s ok) = true
    unfold runStartBody
    split_ifs <;> simpa [opsExclusive] using hs
  | bgStopBody a b c d =>
    show opsExclusive (runStopBody s a b c d).1 = true
    simpa [opsExclusive, runStopBody_startOp, runStopBody_stopOp] using hs
  | completeStart st =>
    show opsExclusive (completedStartHandler s st).1 = true
    unfold completedStartHandler
    by_cases h1 : s.startPreviewOp = true
    · cases st <;> simp [h1, opsExclusive]
    · simpa [h1] using hs
  | completeStop st =>
    show opsExclusive (completedStopHandler s st).1 = true
    unfold completedStopHandler
    by_cases h1 : s.stopPreviewOp = true
    · cases st <;> simp [h1, opsExclusive]
    · simpa [h1] using hs
  | callShutdown a b c d =>
    show opsExclusive (shutdownStep s a b c d).1 = true
    unfold shutdownStep
    by_cases h1 : s.isShutdown = true
    · simpa [h1] using hs
    · have hs1 : opsExclusive { s with isShutdown := true } = true := by
        simpa [opsExclusive] using hs
      simp only [h1, Bool.false_eq_true, if_false]
      rw [opsExclusive_release]
      exact opsExclusive_shutdownInner _ a b c d hs1
  | setHandler h =>
    show opsExclusive (setPayloadHandler s h) = true
    unfold setPayloadHandler
    simpa [opsExclusive, resetPH_startOp, resetPH_stopOp] using hs
  | setCoordinate b =>
    simpa [step, opsExclusive] using hs
  | payloadArrive sender p dOk uOk =>
    show opsExclusive (onStreamPayload s sender p dOk uOk).1 = true
    simpa [opsExclusive, onStreamPayload_startOp, onStreamPayload_stopOp] using hs

/-- Mutual exclusion holds along every run. -/
theorem run_opsExclusive (acts : List Act) :
    ∀ s : EngineState, opsExclusive s = true → opsExclusive (run s acts).1 = true := by
  induction acts with
  | nil => intro s hs; exact hs
  | cons a rest ih =>
    intro s hs
    have h1 : (run s (a :: rest)).1 = (run (step s a).1 rest).1 := rfl
    rw [h1]
    exact ih (step s a).1 (step_opsExclusive s a hs)

/-- Running a list of sections each of which leaves the state unchanged
leaves the state unchanged. -/
theorem run_state_fixed (acts : List Act) :
    ∀ s : EngineState, (∀ a ∈ acts, (step s a).1 = s) → (run s acts).1 = s := by
  induction acts with
  | nil => intro s _; rfl
  | cons a rest ih =>
    intro s h
    have ha : (step s a).1 = s := h a (List.mem_cons_self a rest)
    have h1 : (run s (a :: rest)).1 = (run (step s a).1 rest).1 := rfl
    rw [h1, ha]
    exact ih s (fun b hb => h b (List.mem_cons_of_mem a hb))

/-- Running a list of sections each of which is a complete no-op is a
complete no-op. -/
theorem run_steady (a : Act) (n : Nat) :
    ∀ s : EngineState, step s a = (s, []) → run s (List.replicate n a) = (s, []) := by
  induction n with
  | zero => intro s _; rfl
  | succ k ih =>
    intro s h
    show run s (a :: List.replicate k a) = (s, [])
    simp [run, h, ih s h]

/-- A video delivery whose dimensions match the live texture, with no
coordinate system set, changes nothing and raises nothing. -/
theorem video_steady (s : EngineState) (sender w h i : Nat) (uOk : Bool)
    (h1 : s.isShutdown = false) (h2 : s.payloadHandler = some sender)
    (h3 : s.sharedVideoTexture = some ⟨i, w, h, true⟩)
    (h4 : s.appCoordinateSystem = false) :
    onStreamPayload s sender (some (PayloadData.video w h)) true uOk = (s, []) := by
  simp [onStreamPayload, h1, h2, videoNeedsAlloc, h3, videoFinish, h4]

/-- An audio delivery after the buffer exists copies in place: the state
is unchanged and one audio-frame callback is raised. -/
theorem audio_steady (s : EngineState) (sender len : Nat) (x : AudioSample)
    (h1 : s.isShutdown = false) (h2 : s.payloadHandler = some sender)
    (h3 : s.audioSample = some x) :
    onStreamPayload s sender (some (PayloadData.audio len)) true true
      = (s, [emit s Notification.audioFrame]) := by
  simp [onStreamPayload, h1, h2, h3]

theorem audio_steady_state (s : EngineState) (sender len : Nat) (x : AudioSample)
    (h1 : s.isShutdown = false) (h2 : s.payloadHandler = some sender)
    (h3 : s.audioSample = some x) :
    (onStreamPayload s sender (some (PayloadData.audio len)) true true).1 = s := by
  rw [audio_steady s sender len x h1 h2 h3]

theorem run_cons_steady (s s1 : EngineState) (a : Act) (es : List Emit) (l : List Act)
    (hstep : step s a = (s1, es)) (hrest : run s1 l = (s1, [])) :
    run s (a :: l) = (s1, es) := by
  show ((run (step s a).1 l).1, (step s a).2 ++ (run (step s a).1 l).2) = (s1, es)
  rw [hstep]
  simp [hrest]

end Helpers

/-- Claim C1, evaluated at the failing input (bind handler 1, then replace
it with handler 2): the claim asserts that all five subscriptions of the
previous handler are unsubscribed (zero dangling) while five fresh ones
are installed.  The code installs the five fresh subscriptions but leaves
the previous handler's stream-sample and stream-payload subscriptions
dangling, because the setter stores the stream-payload token into
m_streamSampleEventToken (overwriting the stream-sample token) and never
assigns m_payloadEventToken, so ResetPayloadHandler revokes those two
events with tokens that match no registration. -/
theorem C1_replacement_leaves_two_dangling_subscriptions :
    danglingSubs (setPayloadHandler (setPayloadHandler initState 1) 2).subWorld 2 = 5 ∧
    danglingSubs (setPayloadHandler (setPayloadHandler initState 1) 2).subWorld 1 = 2 ∧
    ((setPayloadHandler (setPayloadHandler initState 1) 2).subWorld.subs.filter
        fun sub => sub.handler == 1)
      = [⟨1, PHEvent.streamSample, 4⟩, ⟨1, PHEvent.streamPayload, 5⟩] := by
  decide

/-- Claim C2 is false on the code at this concrete trace: StartPreview is
issued, its background sequence completes (signaling the start-complete
event), Shutdown then runs to completion while the start operation's
Completed handler is still queued behind the engine lock, and when that
handler finally fires it delivers the preview-started notification to the
callback sink even though the shutdown flag is set — the handler never
consults the flag. -/
theorem C2_counterexample :
    ((run initState c2Trace).2.filter fun e => e.shutdownAtEmit)
      = [⟨Notification.previewStarted, false, false, true⟩] := by
  decide

/-- Claim C2 (amended): the Completed handlers installed on the start and
stop operations do not consult the shutdown flag: when an in-flight
operation completes after Shutdown has set the flag, the handler still
clears its operation handle and still delivers its terminal notification
to the callback sink; only the coroutine's final resumption onto the
calling thread is conditioned on the flag. -/
theorem C2_completion_ignores_shutdown_flag (s t : EngineState)
    (h1 : s.isShutdown = true) (h2 : s.startPreviewOp = true)
    (h3 : t.isShutdown = true) (h4 : t.stopPreviewOp = true) :
    (completedStartHandler s AsyncStatus.completed).2
        = [⟨Notification.previewStarted, false, s.stopPreviewOp, true⟩] ∧
    (completedStopHandler t AsyncStatus.completed).2
        = [⟨Notification.previewStopped, t.startPreviewOp, false, true⟩] := by
  constructor
  · simp [completedStartHandler, emit, h1, h2]
  · simp [completedStopHandler, emit, h3, h4]

/-- Claim C2 amended, witnessed at a concrete shut-down state with each
operation in flight. -/
theorem C2_completion_ignores_shutdown_flag_witness :
    (completedStartHandler { initState with isShutdown := true, startPreviewOp := true }
        AsyncStatus.completed).2
      = [⟨Notification.previewStarted, false, false, true⟩] ∧
    (completedStopHandler { initState with isShutdown := true, stopPreviewOp := true }
        AsyncStatus.completed).2
      = [⟨Notification.previewStopped, false, false, true⟩] :=
  C2_completion_ignores_shutdown_flag
    { initState with isShutdown := true, startPreviewOp := true }
    { initState with isShutdown := true, stopPreviewOp := true }
    rfl rfl rfl rfl

/-- Claim C3 is false on the code: after a completed Shutdown on a fresh
engine, a StartPreview call is accepted rather than rejected — it returns
S_OK, installs the start operation handle (a coroutine is launched) and
recreates device resources — because neither StartPreview nor StopPreview
tests the shutdown flag; their only guard is the outstanding-operation
check. -/
theorem C3_counterexample :
    c3ShutState.isShutdown = true ∧
    (startPreview c3ShutState true).1 = HResult.sOk ∧
    (startPreview c3ShutState true).2.startPreviewOp = true ∧
    (startPreview c3ShutState true).2.mediaDevice = true ∧
    (startPreview c3ShutState true).2.dxgiDeviceManager = true := by
  decide

/-- Claim C3 (amended): once shutdown has begun, StartPreview and
StopPreview remain guarded only by the outstanding-operation check: while
an operation is outstanding they are rejected busy with no state change,
but with no operation outstanding they are accepted exactly as before
shutdown — StartPreview (when device acquisition succeeds) returns S_OK
and installs the start operation handle, StopPreview returns S_OK and
installs the stop operation handle.  Shutdown itself relies on this,
invoking StopPreview after setting the flag. -/
theorem C3_no_shutdown_guard_on_start_stop (s : EngineState) (dOk : Bool)
    (hsd : s.isShutdown = true) :
    ((s.startPreviewOp = true ∨ s.stopPreviewOp = true) →
      startPreview s dOk = (HResult.eAbort, s) ∧
      stopPreview s = (HResult.eAbort, s)) ∧
    (s.startPreviewOp = false → s.stopPreviewOp = false → dOk = true →
      (startPreview s dOk).1 = HResult.sOk ∧
      (startPreview s dOk).2.startPreviewOp = true ∧
      (stopPreview s).1 = HResult.sOk ∧
      (stopPreview s).2.stopPreviewOp = true) := by
  constructor
  · intro h
    have hb : (s.startPreviewOp || s.stopPreviewOp) = true := by
      rcases h with h | h <;> simp [h]
    constructor <;> simp [startPreview, stopPreview, hb]
  · intro h1 h2 h3
    have hb : (s.startPreviewOp || s.stopPreviewOp) = false := by simp [h1, h2]
    refine ⟨?_, ?_, ?_, ?_⟩ <;>
      simp [startPreview, stopPreview, createDeviceResources, hb, h3] <;>
      split_ifs <;> simp_all

/-- Claim C3 amended, witnessed at the concrete post-shutdown state of a
fresh engine. -/
theorem C3_no_shutdown_guard_on_start_stop_witness :
    (startPreview { initState with isShutdown := true } true).1 = HResult.sOk ∧
    (startPreview { initState with isShutdown := true } true).2.startPreviewOp = true := by
  have h := C3_no_shutdown_guard_on_start_stop { initState with isShutdown := true } true rfl
  have h2 := h.2 rfl rfl rfl
  exact ⟨h2.1, h2.2.1⟩

/-- Claim C4: whenever a start or stop operation handle is non-absent,
both StartPreview and StopPreview return E_ABORT synchronously and leave
the engine state exactly unchanged — no synchronization-event reset, no
device-resource creation, no coroutine launch, no operation handle set. -/
theorem C4_busy_rejected_without_mutation (s : EngineState) (dOk : Bool)
    (h : s.startPreviewOp = true ∨ s.stopPreviewOp = true) :
    startPreview s dOk = (HResult.eAbort, s) ∧
    stopPreview s = (HResult.eAbort, s) := by
  have hb : (s.startPreviewOp || s.stopPreviewOp) = true := by
    rcases h with h | h <;> simp [h]
  constructor <;> simp [startPreview, stopPreview, hb]

/-- Claim C4, witnessed with a start operation outstanding. -/
theorem C4_busy_rejected_without_mutation_witness :
    startPreview { initState with startPreviewOp := true } true
        = (HResult.eAbort, { initState with startPreviewOp := true }) ∧
    stopPreview { initState with startPreviewOp := true }
        = (HResult.eAbort, { initState with startPreviewOp := true }) :=
  C4_busy_rejected_without_mutation { initState with startPreviewOp := true } true
    (Or.inl rfl)

/-- Claim C5: for a video payload delivery that passes the handler guards,
(i) the video-frame-ready callback is raised exactly when the texture was
(re)allocated in that delivery or the transform update succeeded in that
delivery, (ii) a texture allocation happens exactly when the payload's
dimensions mismatch the current texture description (or none exists), and
(iii) starting with no texture and no coordinate system, n+1 deliveries of
identically sized frames produce exactly one allocation and exactly one
video-frame-ready callback, raised on the first delivery. -/
theorem C5_video_realloc_and_notify_discipline (s : EngineState)
    (sender w h n : Nat) (uOk : Bool)
    (hg1 : s.isShutdown = false) (hg2 : s.payloadHandler = some sender) :
    (((onStreamPayload s sender (some (PayloadData.video w h)) true uOk).2 ≠ []) ↔
      (videoNeedsAlloc s w h = true ∨ (s.appCoordinateSystem = true ∧ uOk = true))) ∧
    ((onStreamPayload s sender (some (PayloadData.video w h)) true uOk).1.textureAllocCount
        = s.textureAllocCount + (if videoNeedsAlloc s w h then 1 else 0)) ∧
    (s.sharedVideoTexture = none → s.appCoordinateSystem = false →
      (run s (List.replicate (n + 1)
          (Act.payloadArrive sender (some (PayloadData.video w h)) true uOk))).1.textureAllocCount
          = s.textureAllocCount + 1 ∧
      (run s (List.replicate (n + 1)
          (Act.payloadArrive sender (some (PayloadData.video w h)) true uOk))).2
          = [⟨Notification.videoFrame w h, s.startPreviewOp, s.stopPreviewOp, false⟩]) := by
  refine ⟨?_, ?_, ?_⟩
  · rcases hT : s.sharedVideoTexture with _ | t
    · have hN : videoNeedsAlloc s w h = true := by simp [videoNeedsAlloc, hT]
      simp [onStreamPayload, hg1, hg2, hN, videoFinish, emit]
    · by_cases hN : videoNeedsAlloc s w h = true
      · simp [onStreamPayload, hg1, hg2, hN, videoFinish, emit]
      · by_cases hc : s.appCoordinateSystem = true <;> by_cases hu : uOk = true <;>
          simp [onStreamPayload, hg1, hg2, hN, videoFinish, hT, emit, hc, hu]
  · by_cases hN : videoNeedsAlloc s w h = true <;>
      simp [onStreamPayload, hg1, hg2, hN, videoFinish_state]
  · intro hT hC
    have hN : videoNeedsAlloc s w h = true := by simp [videoNeedsAlloc, hT]
    have hstep1 : onStreamPayload s sender (some (PayloadData.video w h)) true uOk
        = ({ s with
              mediaDevice := true
              dxgiDeviceManager := true
              sharedVideoTexture := some ⟨s.nextTextureId, w, h, true⟩
              nextTextureId := s.nextTextureId + 1
              textureAllocCount := s.textureAllocCount + 1 },
           [⟨Notification.videoFrame w h, s.startPreviewOp, s.stopPreviewOp, false⟩]) := by
      simp [onStreamPayload, hg1, hg2, hN, videoFinish, emit]
    have hsteady :
        step ({ s with
              mediaDevice := true
              dxgiDeviceManager := true
              sharedVideoTexture := some ⟨s.nextTextureId, w, h, true⟩
              nextTextureId := s.nextTextureId + 1
              textureAllocCount := s.textureAllocCount + 1 } : EngineState)
            (Act.payloadArrive sender (some (PayloadData.video w h)) true uOk)
          = ({ s with
              mediaDevice := true
              dxgiDeviceManager := true
              sharedVideoTexture := some ⟨s.nextTextureId, w, h, true⟩
              nextTextureId := s.nextTextureId + 1
              textureAllocCount := s.textureAllocCount + 1 }, []) := by
      show onStreamPayload _ sender (some (PayloadData.video w h)) true uOk = _
      exact video_steady _ sender w h s.nextTextureId uOk hg1 hg2 rfl hC
    have hstep : step s (Act.payloadArrive sender (some (PayloadData.video w h)) true uOk)
        = ({ s with
            mediaDevice := true
            dxgiDeviceManager := true
            sharedVideoTexture := some ⟨s.nextTextureId, w, h, true⟩
            nextTextureId := s.nextTextureId + 1
            textureAllocCount := s.textureAllocCount + 1 },
           [⟨Notification.videoFrame w h, s.startPreviewOp, s.stopPreviewOp, false⟩]) := hstep1
    have hrun : run s (List.replicate (n + 1)
          (Act.payloadArrive sender (some (PayloadData.video w h)) true uOk))
        = ({ s with
            mediaDevice := true
            dxgiDeviceManager := true
            sharedVideoTexture := some ⟨s.nextTextureId, w, h, true⟩
            nextTextureId := s.nextTextureId + 1
            textureAllocCount := s.textureAllocCount + 1 },
           [⟨Notification.videoFrame w h, s.startPreviewOp, s.stopPreviewOp, false⟩]) := by
      rw [List.replicate_succ]
      exact run_cons_steady _ _ _ _ _ hstep (run_steady _ n _ hsteady)
    rw [hrun]
    constructor <;> rfl

/-- Claim C5, witnessed: five identically sized 1280x720 deliveries to a
fresh engine with a bound handler and no coordinate system yield one
texture allocation and a single video-frame-ready callback. -/
theorem C5_video_realloc_and_notify_discipline_witness :
    (run { initState with payloadHandler := some 1 } (List.replicate 5
        (Act.payloadArrive 1 (some (PayloadData.video 1280 720)) true true))).1.textureAllocCount
      = 1 ∧
    (run { initState with payloadHandler := some 1 } (List.replicate 5
        (Act.payloadArrive 1 (some (PayloadData.video 1280 720)) true true))).2
      = [⟨Notification.videoFrame 1280 720, false, false, false⟩] := by
  have h := C5_video_realloc_and_notify_discipline
    { initState with payloadHandler := some 1 } 1 1280 720 4 true rfl rfl
  exact h.2.2 rfl rfl

/-- Claim C6: along every execution from the constructed engine, at most
one of the start and stop operation handles is non-absent; moreover each
operation's completion handler clears its own handle back to absent before
raising any notification — every callback a completion handler emits is
made from a state in which that handle is already absent. -/
theorem C6_handles_exclusive_and_cleared_before_notify :
    (∀ acts : List Act, opsExclusive (run initState acts).1 = true) ∧
    (∀ (s : EngineState) (st : AsyncStatus),
      (completedStartHandler s st).1.startPreviewOp = false ∧
      ((completedStartHandler s st).2.all fun e => !e.startOpAtEmit) = true) ∧
    (∀ (s : EngineState) (st : AsyncStatus),
      (completedStopHandler s st).1.stopPreviewOp = false ∧
      ((completedStopHandler s st).2.all fun e => !e.stopOpAtEmit) = true) := by
  refine ⟨fun acts => run_opsExclusive acts initState rfl, fun s st => ?_, fun s st => ?_⟩
  · unfold completedStartHandler
    by_cases h1 : s.startPreviewOp = true
    · cases st <;> simp [h1, emit]
    · have h0 : s.startPreviewOp = false := by cases hx : s.startPreviewOp <;> simp_all
      simp [h0]
  · unfold completedStopHandler
    by_cases h1 : s.stopPreviewOp = true
    · cases st <;> simp [h1, emit]
    · have h0 : s.stopPreviewOp = false := by cases hx : s.stopPreviewOp <;> simp_all
      simp [h0]

/-- Claim C7: within one session, the first audio delivery allocates the
audio sample buffer, sized to that payload's total byte length; any
sequence of further audio deliveries copies into that same buffer object
in place — the buffer's identity (and the allocation count) is unchanged
across deliveries 2..N. -/
theorem C7_audio_buffer_allocated_once_and_stable (s : EngineState)
    (sender len : Nat) (rest : List Nat)
    (hg1 : s.isShutdown = false) (hg2 : s.payloadHandler = some sender)
    (h0 : s.audioSample = none) :
    (onStreamPayload s sender (some (PayloadData.audio len)) true true).1.audioSample
        = some ⟨s.nextAudioId, len⟩ ∧
    (onStreamPayload s sender (some (PayloadData.audio len)) true true).1.audioAllocCount
        = s.audioAllocCount + 1 ∧
    (onStreamPayload s sender (some (PayloadData.audio len)) true true).2
        = [⟨Notification.audioFrame, s.startPreviewOp, s.stopPreviewOp, false⟩] ∧
    (run (onStreamPayload s sender (some (PayloadData.audio len)) true true).1
        (rest.map fun l => Act.payloadArrive sender (some (PayloadData.audio l)) true true)).1.audioSample
        = some ⟨s.nextAudioId, len⟩ ∧
    (run (onStreamPayload s sender (some (PayloadData.audio len)) true true).1
        (rest.map fun l => Act.payloadArrive sender (some (PayloadData.audio l)) true true)).1.audioAllocCount
        = s.audioAllocCount + 1 := by
  have hstep1 : onStreamPayload s sender (some (PayloadData.audio len)) true true
      = ({ s with
            audioSample := some ⟨s.nextAudioId, len⟩
            nextAudioId := s.nextAudioId + 1
            audioAllocCount := s.audioAllocCount + 1 },
         [⟨Notification.audioFrame, s.startPreviewOp, s.stopPreviewOp, false⟩]) := by
    simp [onStreamPayload, hg1, hg2, h0, emit]
  have hfix : (run ({ s with
            audioSample := some ⟨s.nextAudioId, len⟩
            nextAudioId := s.nextAudioId + 1
            audioAllocCount := s.audioAllocCount + 1 } : EngineState)
      (rest.map fun l => Act.payloadArrive sender (some (PayloadData.audio l)) true true)).1
      = { s with
            audioSample := some ⟨s.nextAudioId, len⟩
            nextAudioId := s.nextAudioId + 1
            audioAllocCount := s.audioAllocCount + 1 } := by
    apply run_state_fixed
    intro a ha
    rcases List.mem_map.mp ha with ⟨l, _, rfl⟩
    exact audio_steady_state _ sender l ⟨s.nextAudioId, len⟩ hg1 hg2 rfl
  refine ⟨?_, ?_, ?_, ?_, ?_⟩ <;> simp only [hstep1] <;> try rfl
  · rw [hfix]
  · rw [hfix]

/-- Claim C7, witnessed: three audio deliveries (4096, 2048 and 999 bytes)
to a fresh engine allocate once, sized 4096, and keep the same buffer. -/
theorem C7_audio_buffer_allocated_once_and_stable_witness :
    (run (onStreamPayload { initState with payloadHandler := some 2 } 2
          (some (PayloadData.audio 4096)) true true).1
        ([2048, 999].map fun l => Act.payloadArrive 2 (some (PayloadData.audio l)) true true)).1.audioSample
      = some ⟨1, 4096⟩ ∧
    (run (onStreamPayload { initState with payloadHandler := some 2 } 2
          (some (PayloadData.audio 4096)) true true).1
        ([2048, 999].map fun l => Act.payloadArrive 2 (some (PayloadData.audio l)) true true)).1.audioAllocCount
      = 1 := by
  have h := C7_audio_buffer_allocated_once_and_stable
    { initState with payloadHandler := some 2 } 2 4096 [2048, 999] rfl rfl rfl
  exact ⟨h.2.2.2.1, h.2.2.2.2⟩

/-- Claim C8: in a video delivery that (re)allocates the shared texture
(dimension mismatch) while a coordinate system is set, a failing
UpdateTransforms does not suppress the video-frame-ready callback: the
frame is still published. -/
theorem C8_transform_failure_still_notifies (s : EngineState) (sender w h : Nat)
    (hg1 : s.isShutdown = false) (hg2 : s.payloadHandler = some sender)
    (halloc : videoNeedsAlloc s w h = true) (hcoord : s.appCoordinateSystem = true) :
    (onStreamPayload s sender (some (PayloadData.video w h)) true false).2
      = [⟨Notification.videoFrame w h, s.startPreviewOp, s.stopPreviewOp, false⟩] := by
  simp [onStreamPayload, hg1, hg2, halloc, videoFinish, emit]

/-- Claim C8, witnessed at a fresh engine with a coordinate system set and
a failing transform update. -/
theorem C8_transform_failure_still_notifies_witness :
    (onStreamPayload { initState with payloadHandler := some 1, appCoordinateSystem := true }
        1 (some (PayloadData.video 640 480)) true false).2
      = [⟨Notification.videoFrame 640 480, false, false, false⟩] :=
  C8_transform_failure_still_notifies
    { initState with payloadHandler := some 1, appCoordinateSystem := true }
    1 640 480 rfl rfl rfl rfl

/-- Claim C9 is false on the code at this concrete input: with a session
present and all three effects installed, a failing removal of the audio
effect faults the coroutine (there is no try/catch around the awaits), so
removal of the still-installed preview-video and record-video effects is
never attempted and their handles remain set — contradicting the claim
that removal of one installed effect is not skipped because removal of
another failed. -/
theorem C9_counterexample :
    (removeMrcEffectsAsync c9AllEffectsState false true true).attempted
        = [EffectKind.audio] ∧
    (removeMrcEffectsAsync c9AllEffectsState false true true).state.mrcAudioEffect = true ∧
    (removeMrcEffectsAsync c9AllEffectsState false true true).state.mrcPreviewEffect = true ∧
    (removeMrcEffectsAsync c9AllEffectsState false true true).state.mrcVideoEffect = true ∧
    (removeMrcEffectsAsync c9AllEffectsState false true true).ok = false := by
  decide

/-- Claim C9 (amended): with a session present, effect removal visits the
installed effects in the order audio, preview-video, record-video and
clears each handle right after its successful removal; when every removal
succeeds, removal is attempted for exactly the installed effects, in that
order, and all three handles end cleared.  But a failing removal
propagates out of the coroutine: the failed effect keeps its handle and
the remaining installed effects are skipped, their handles unchanged. -/
theorem C9_removal_order_and_failure_abort (s : EngineState) (pOk vOk : Bool)
    (hcap : s.mediaCapture = true) :
    ((removeMrcEffectsAsync s true true true).attempted = installedEffects s ∧
     (removeMrcEffectsAsync s true true true).state.mrcAudioEffect = false ∧
     (removeMrcEffectsAsync s true true true).state.mrcPreviewEffect = false ∧
     (removeMrcEffectsAsync s true true true).state.mrcVideoEffect = false ∧
     (removeMrcEffectsAsync s true true true).ok = true) ∧
    (s.mrcAudioEffect = true →
      removeMrcEffectsAsync s false pOk vOk = ⟨s, [EffectKind.audio], false⟩) ∧
    (s.mrcPreviewEffect = true →
      (removeMrcEffectsAsync s true false vOk).state.mrcVideoEffect = s.mrcVideoEffect ∧
      (removeMrcEffectsAsync s true false vOk).state.mrcPreviewEffect = true ∧
      (removeMrcEffectsAsync s true false vOk).attempted
        = (if s.mrcAudioEffect then [EffectKind.audio] else []) ++ [EffectKind.preview] ∧
      (removeMrcEffectsAsync s true false vOk).ok = false) := by
  cases hA : s.mrcAudioEffect <;> cases hP : s.mrcPreviewEffect <;>
    cases hV : s.mrcVideoEffect <;> cases pOk <;> cases vOk <;>
    simp [removeMrcEffectsAsync, installedEffects, hcap, hA, hP, hV]

/-- Claim C9 amended, witnessed at the all-effects state: all-successful
removal attempts all three in order and clears them, and a failing audio
removal aborts the sequence. -/
theorem C9_removal_order_and_failure_abort_witness :
    ((removeMrcEffectsAsync c9AllEffectsState true true true).attempted
        = [EffectKind.audio, EffectKind.preview, EffectKind.video] ∧
     (removeMrcEffectsAsync c9AllEffectsState true true true).state.mrcVideoEffect = false) ∧
    removeMrcEffectsAsync c9AllEffectsState false true true
        = ⟨c9AllEffectsState, [EffectKind.audio], false⟩ := by
  have h := C9_removal_order_and_failure_abort c9AllEffectsState true true rfl
  exact ⟨⟨h.1.1, h.1.2.2.2.1⟩, h.2.1 rfl⟩

/-- Claim C10: a StopPreview issued when no session was ever opened (no
capture object, no sink), with no operation outstanding and the engine not
shut down, is accepted with S_OK; the stop sequence then performs no
external call (nothing to stop, nothing to close) and the completion
handler raises exactly one preview-stopped notification. -/
theorem C10_stop_without_session_is_noop_with_notification (s : EngineState)
    (streaming a b c : Bool)
    (h1 : s.isShutdown = false) (h2 : s.startPreviewOp = false)
    (h3 : s.stopPreviewOp = false) (h4 : s.mediaCapture = false) :
    (stopPreview s).1 = HResult.sOk ∧
    (runStopBody (stopPreview s).2 streaming a b c).2 = [] ∧
    (runStopBody (stopPreview s).2 streaming a b c).1.mediaCapture = false ∧
    (completedStopHandler (runStopBody (stopPreview s).2 streaming a b c).1
        AsyncStatus.completed).2
      = [⟨Notification.previewStopped, false, false, false⟩] := by
  have hb : (s.startPreviewOp || s.stopPreviewOp) = false := by simp [h2, h3]
  have hstop : stopPreview s = (HResult.sOk,
      { s with stopEventSignaled := false, stopPreviewOp := true }) := by
    simp [stopPreview, hb]
  have hcap : (resetPayloadHandler
      { s with stopEventSignaled := false, stopPreviewOp := true }).mediaCapture = false := by
    rw [resetPH_mediaCapture]; exact h4
  have hbody : runStopBody { s with stopEventSignaled := false, stopPreviewOp := true }
        streaming a b c
      = ({ resetPayloadHandler { s with stopEventSignaled := false, stopPreviewOp := true } with
           mediaSink := false, stopEventSignaled := true }, []) := by
    simp [runStopBody, hcap]
  refine ⟨by simp [hstop], ?_, ?_, ?_⟩
  · simp only [hstop, hbody]
  · simp only [hstop, hbody]
    simp [resetPH_mediaCapture, h4]
  · simp only [hstop, hbody]
    simp [completedStopHandler, emit, resetPH_stopOp, resetPH_startOp, resetPH_isShutdown,
      h1, h2]

/-- Claim C10, witnessed on a fresh engine with only a payload handler
bound. -/
theorem C10_stop_without_session_is_noop_with_notification_witness :
    (stopPreview { initState with payloadHandler := some 3 }).1 = HResult.sOk ∧
    (runStopBody (stopPreview { initState with payloadHandler := some 3 }).2
        true true true true).2 = [] ∧
    (completedStopHandler (runStopBody
        (stopPreview { initState with payloadHandler := some 3 }).2 true true true true).1
        AsyncStatus.completed).2
      = [⟨Notification.previewStopped, false, false, false⟩] := by
  have h := C10_stop_without_session_is_noop_with_notification
    { initState with payloadHandler := some 3 } true true true true rfl rfl rfl rfl
  exact ⟨h.1, h.2.1, h.2.2.2⟩

end CaptureEngineModel
